import Mathlib

/-!
# Verification of the win-voice push-to-talk dictation core (src/dictate.py)

Shallow embedding of the recording/transcription state machine of
`src/dictate.py`.  Pure bookkeeping (flags, the shared chunk list, the
derived transcript string, the hotkey edge detection, config loading) is
translated into Lean functions; the observable side effects of each
method (icon updates, sounds, clipboard writes, sleeps, keystrokes,
thread spawns, flag writes) are recorded as a chronological trace of
`Action`s so that ordering properties can be stated.  External
collaborators (the audio driver, the whisper engine, the file system)
enter as explicit parameters: `InferResult` is the outcome of
`model.transcribe`, `ConfigFile` the state of `config.json`.

Audio samples are float32 in the source; no claim depends on sample
values, only on chunk identity and per-chunk sample counts, so a sample
is modelled as an `Int`.
-/

namespace WinVoice

/-- One block of samples delivered by a single audio-callback invocation
(`indata.copy()` in `audio_callback`).  Sample values are irrelevant to
every property proved here; only identity and length matter. -/
abbrev Chunk := List Int

/-- `SAMPLE_RATE = 16000` (src/dictate.py line 55). -/
def SAMPLE_RATE : Nat := 16000

/-- The discard threshold `int(SAMPLE_RATE * 0.1)` of `stop_recording`
(line 374).  `16000 * 0.1` is exactly `1600.0` after float rounding, so
`int` of it is `1600 = SAMPLE_RATE / 10`. -/
def MIN_SAMPLES : Nat := SAMPLE_RATE / 10

/-- `total = sum(len(a) for a in audio_data)` (line 372). -/
def totalSamples (chunks : List Chunk) : Nat :=
  (chunks.map List.length).sum

/-- Observable side effects of the state-machine methods, recorded in
program order.  Flag writes are included so that ordering between an
effect and a flag write can be stated.  `sleep` is in milliseconds
(`time.sleep(0.05)` is `sleep 50`, `time.sleep(0.3)` is `sleep 300`).
Log `print` calls are not recorded. -/
inductive Action
  | setRecording (b : Bool)
  | setProcessing (b : Bool)
  | resetBuffer
  | setIcon (color : String)
  | overlaySetState (st : String)
  | overlayShow
  | overlayHide
  | playSound (name : String)
  | spawnTranscribe (chunks : List Chunk)
  | wavWrite
  | inferCall
  | clipboardCopy (text : String)
  | sleep (ms : Nat)
  | pasteKeystroke
  | unlinkTemp
deriving DecidableEq

/-- Recognises a clipboard write in a trace. -/
def Action.isClipboardWrite : Action → Bool
  | .clipboardCopy _ => true
  | _ => false

/-- Recognises the paste keystroke in a trace. -/
def Action.isPaste : Action → Bool
  | .pasteKeystroke => true
  | _ => false

/-- Recognises a buffer reassignment (`self.audio_data = []`) in a trace. -/
def Action.isReset : Action → Bool
  | .resetBuffer => true
  | _ => false

/-- Recognises a worker-thread spawn in a trace. -/
def Action.isSpawn : Action → Bool
  | .spawnTranscribe _ => true
  | _ => false

/-- Number of buffer reassignments in a trace. -/
def countResets (tr : List Action) : Nat :=
  (tr.filter Action.isReset).length

/-- The mutable fields of the `WinVoice` object (its `__init__`,
lines 312-323) that the modelled methods read or write.  `model` is
`none` until `load_model` finishes; `tray` and `overlay` record whether
those objects have been created (they are object references in the
source, tested for truthiness only). -/
structure AppState where
  recording : Bool
  processing : Bool
  audio_data : List Chunk
  model : Option Unit
  tray : Bool
  overlay : Bool
  key_pressed : Bool
deriving DecidableEq

/-- `WinVoice.audio_callback` (lines 337-339): append a copy of the
incoming frame block to the shared chunk list iff `recording` is set. -/
def audio_callback (s : AppState) (indata : Chunk) : AppState :=
  if s.recording then { s with audio_data := s.audio_data ++ [indata] } else s

/-- `WinVoice.start_recording` (lines 341-355).  Returns the updated
state and the chronological trace of its side effects. -/
def start_recording (s : AppState) : AppState × List Action :=
  if s.recording || s.processing || s.model.isNone then (s, [])
  else
    ({ s with recording := true, audio_data := [] },
      [Action.setRecording true, Action.resetBuffer]
        ++ (if s.tray then [Action.setIcon "red"] else [])
        ++ (if s.overlay then
              [Action.overlaySetState "recording", Action.overlayShow] else [])
        ++ [Action.playSound "start"])

/-- `WinVoice.stop_recording` (lines 357-383).  The local
`audio_data = self.audio_data.copy()` snapshot is `snapshot`; the
shared buffer is then reassigned to `[]` (line 362, `resetBuffer` in the
trace).  If the snapshot holds fewer than `MIN_SAMPLES` samples the
method returns without touching `processing`; otherwise it sets
`processing` and spawns the transcription worker on the snapshot. -/
def stop_recording (s : AppState) : AppState × List Action :=
  if !s.recording then (s, [])
  else
    let snapshot := s.audio_data
    let s1 := { s with recording := false, audio_data := [] }
    let effs :=
      [Action.setRecording false, Action.resetBuffer]
        ++ (if s.tray then [Action.setIcon "yellow"] else [])
        ++ [Action.playSound "stop"]
        ++ (if s.overlay then [Action.overlaySetState "processing"] else [])
    if totalSamples snapshot < MIN_SAMPLES then
      (s1, effs ++ (if s.tray then [Action.setIcon "green"] else [])
             ++ (if s.overlay then [Action.overlayHide] else []))
    else
      ({ s1 with processing := true },
        effs ++ [Action.setProcessing true, Action.spawnTranscribe snapshot])

/-- Outcome of the external `self.model.transcribe(...)` call: either the
ordered segment texts (`s.text` of each returned segment) or an engine
exception. -/
inductive InferResult
  | ok (segments : List String)
  | err (msg : String)
deriving DecidableEq

/-- `np.concatenate(audio_data, axis=0)` (line 388): raises `ValueError`
on an empty chunk list (`none` here) and concatenates otherwise — all
chunks delivered by the stream are mono blocks of the same rank, so the
empty argument list is the failure case of this call site. -/
def concatChunks (chunks : List Chunk) : Option (List Int) :=
  if chunks = [] then none else some chunks.flatten

/-- Python `" ".join(parts)`. -/
def pyJoin (sep : String) (parts : List String) : String :=
  String.intercalate sep parts

/-- Python `str.isspace()` on a single character — the set that
`str.strip()` with no argument removes.  CPython counts a code point as
whitespace when its bidirectional class is WS, B or S or its category is
Zs: tab through carriage return (0x09-0x0d), the file/group/record/unit
separators (0x1c-0x1f), space, next line (0x85), no-break space (0xa0),
ogham space mark (0x1680), en quad through hair space (0x2000-0x200a),
line separator (0x2028), paragraph separator (0x2029), narrow no-break
space (0x202f), medium mathematical space (0x205f) and ideographic space
(0x3000). -/
def isPyWhitespace (c : Char) : Bool :=
  let n := c.toNat
  (0x09 ≤ n && n ≤ 0x0d) || (0x1c ≤ n && n ≤ 0x1f) || n == 0x20 ||
    n == 0x85 || n == 0xa0 || n == 0x1680 ||
    (0x2000 ≤ n && n ≤ 0x200a) || n == 0x2028 || n == 0x2029 ||
    n == 0x202f || n == 0x205f || n == 0x3000

/-- Python `str.strip()`: drop leading and trailing whitespace. -/
def pyStrip (s : String) : String :=
  String.mk (((s.toList.dropWhile isPyWhitespace).reverse.dropWhile
    isPyWhitespace).reverse)

/-- `" ".join([s.text for s in segments]).strip()` (line 408). -/
def transcriptOf (segments : List String) : String :=
  pyStrip (pyJoin " " segments)

/-- `WinVoice.transcribe` (lines 385-433), run on the worker thread with
the detached chunk snapshot.  The external inference outcome is the
`infer` parameter.  On concatenation failure the method resets
`processing` and returns; otherwise it writes the temp wav, calls the
engine, and — when the joined-and-stripped transcript is non-empty —
copies it to the clipboard, sleeps 50 ms, synthesizes ctrl+v and plays
the paste cue.  The temp file is removed in the `finally` block, after
which `processing` is reset and the idle visuals restored. -/
def transcribe (s : AppState) (chunks : List Chunk) (infer : InferResult) :
    AppState × List Action :=
  match concatChunks chunks with
  | none =>
      ({ s with processing := false },
        [Action.setProcessing false]
          ++ (if s.tray then [Action.setIcon "green"] else [])
          ++ (if s.overlay then [Action.overlayHide] else []))
  | some _samples =>
      let (pasted, pasteActs) :=
        match infer with
        | InferResult.ok segments =>
            let text := transcriptOf segments
            if text ≠ "" then
              (true, [Action.clipboardCopy text, Action.sleep 50,
                      Action.pasteKeystroke, Action.playSound "paste"])
            else (false, ([] : List Action))
        | InferResult.err _ => (false, ([] : List Action))
      ({ s with processing := false },
        [Action.wavWrite, Action.inferCall] ++ pasteActs
          ++ [Action.unlinkTemp, Action.setProcessing false]
          ++ (if s.tray then [Action.setIcon "green"] else [])
          ++ (if s.overlay then
                (if pasted then [Action.sleep 300] else []) ++ [Action.overlayHide]
              else []))

/-! ## Hotkey polling (`key_poll_loop`, lines 435-455)

The loop samples the raw key-down state every 10 ms and edge-detects
against the `key_pressed` flag; `key_poll_events` is its effect on a
finite list of samples, recording the `start_recording` / `stop_recording`
calls it issues in order. -/

/-- A call issued by the polling loop. -/
inductive HotkeyCall
  | start
  | stop
deriving DecidableEq

/-- The calls `key_poll_loop` issues over a finite sample sequence,
starting from a given `key_pressed` flag value (`False` in
`__init__`). -/
def key_poll_events : Bool → List Bool → List HotkeyCall
  | _, [] => []
  | key_pressed, is_pressed :: rest =>
    if is_pressed && !key_pressed then
      HotkeyCall.start :: key_poll_events true rest
    else if !is_pressed && key_pressed then
      HotkeyCall.stop :: key_poll_events false rest
    else
      key_poll_events key_pressed rest

/-- Number of `start_recording` calls in a call list. -/
def countStarts : List HotkeyCall → Nat
  | [] => 0
  | HotkeyCall.start :: r => countStarts r + 1
  | HotkeyCall.stop :: r => countStarts r

/-- Number of `stop_recording` calls in a call list. -/
def countStops : List HotkeyCall → Nat
  | [] => 0
  | HotkeyCall.start :: r => countStops r
  | HotkeyCall.stop :: r => countStops r + 1

/-- Number of false→true transitions in a sample sequence relative to the
previous observed state. -/
def risingEdges : Bool → List Bool → Nat
  | _, [] => 0
  | prev, b :: rest => (if b && !prev then 1 else 0) + risingEdges b rest

/-- Number of true→false transitions in a sample sequence relative to the
previous observed state. -/
def fallingEdges : Bool → List Bool → Nat
  | _, [] => 0
  | prev, b :: rest => (if !b && prev then 1 else 0) + fallingEdges b rest

/-! ## Configuration loading (`load_config`, lines 58-64) -/

/-- A JSON value stored under a config key: the defaults use strings and
`None` (`"microphone": None`). -/
inductive CfgVal
  | str (s : String)
  | noneVal
deriving DecidableEq

/-- `DEFAULT_CONFIG` (line 54), as an insertion-ordered dict. -/
def DEFAULT_CONFIG : List (String × CfgVal) :=
  [("hotkey", CfgVal.str "alt"), ("model", CfgVal.str "tiny"),
   ("microphone", CfgVal.noneVal), ("language", CfgVal.str "en")]

/-- Lookup in an insertion-ordered dict. -/
def lookupVal (k : String) (l : List (String × CfgVal)) : Option CfgVal :=
  (l.find? (fun p => p.1 == k)).map Prod.snd

/-- Python `{**base, **overrides}`: the keys of `base` in order with
overridden values, then the keys only in `overrides`, in their order. -/
def pyDictMerge (base overrides : List (String × CfgVal)) :
    List (String × CfgVal) :=
  base.map (fun p => (p.1, (lookupVal p.1 overrides).getD p.2))
    ++ overrides.filter (fun p => lookupVal p.1 base == none)

/-- The three relevant states of `config.json`: absent
(`os.path.exists` false), present but unreadable / not valid JSON / not
mergeable (everything the bare `except: pass` catches), or a parsed JSON
object. -/
inductive ConfigFile
  | missing
  | malformed
  | valid (entries : List (String × CfgVal))

/-- `load_config` (lines 58-64): merge the parsed file over the defaults
when it exists and parses; fall back to a copy of `DEFAULT_CONFIG` when
the file is missing or the read/parse/merge raises. -/
def load_config : ConfigFile → List (String × CfgVal)
  | ConfigFile.missing => DEFAULT_CONFIG
  | ConfigFile.malformed => DEFAULT_CONFIG
  | ConfigFile.valid entries => pyDictMerge DEFAULT_CONFIG entries

/-! ## Interleaving model for the shared chunk list

`audio_callback` runs on the audio driver thread while `stop_recording`
runs on the hotkey thread.  Under the CPython GIL each of the following
is atomic: one attribute read, one attribute write, one `list.append`,
one `list.copy`.  A single callback invocation is the two atomic steps
`cbCheck` (read `self.recording`) and `cbAppend` (append to the current
`self.audio_data`); `stop_recording`'s buffer hand-off is the four
atomic steps `srGuard` (the `if not self.recording: return` test),
`srSetFlag` (`self.recording = False`), `srCopy`
(`audio_data = self.audio_data.copy()`) and `srClear`
(`self.audio_data = []`).  No lock orders the two threads, so any
interleaving preserving each thread's program order can occur. -/

/-- Shared state visible to both threads, plus each thread's local
control state (`cbPassed`: the callback saw `recording` true and its
append is pending; `srActive`: `stop_recording` passed its guard;
`snap`: the local snapshot variable of `stop_recording`). -/
structure ConcState where
  recording : Bool
  buf : List Chunk
  snap : List Chunk
  cbPassed : Bool
  srActive : Bool
deriving DecidableEq

/-- The atomic steps of the two threads. -/
inductive AtomicOp
  | cbCheck
  | cbAppend
  | srGuard
  | srSetFlag
  | srCopy
  | srClear
deriving DecidableEq

/-- Effect of one atomic step; `c` is the frame block the callback
invocation is holding. -/
def runOp (c : Chunk) (st : ConcState) : AtomicOp → ConcState
  | AtomicOp.cbCheck => { st with cbPassed := st.recording }
  | AtomicOp.cbAppend =>
      if st.cbPassed then { st with buf := st.buf ++ [c] } else st
  | AtomicOp.srGuard => { st with srActive := st.recording }
  | AtomicOp.srSetFlag =>
      if st.srActive then { st with recording := false } else st
  | AtomicOp.srCopy =>
      if st.srActive then { st with snap := st.buf } else st
  | AtomicOp.srClear =>
      if st.srActive then { st with buf := [] } else st

/-- Run a schedule of atomic steps. -/
def runOps (c : Chunk) (st : ConcState) (l : List AtomicOp) : ConcState :=
  l.foldl (runOp c) st

/-- The callback thread's program for one invocation. -/
def cbProg : List AtomicOp := [AtomicOp.cbCheck, AtomicOp.cbAppend]

/-- The hotkey thread's program for the hand-off part of
`stop_recording`. -/
def srProg : List AtomicOp :=
  [AtomicOp.srGuard, AtomicOp.srSetFlag, AtomicOp.srCopy, AtomicOp.srClear]

/-- `Merge xs ys zs`: `zs` is an interleaving of `xs` and `ys` that
preserves the order of each. -/
inductive Merge : List AtomicOp → List AtomicOp → List AtomicOp → Prop
  | nil : Merge [] [] []
  | left {x xs ys zs} : Merge xs ys zs → Merge (x :: xs) ys (x :: zs)
  | right {y xs ys zs} : Merge xs ys zs → Merge xs (y :: ys) (y :: zs)

/-- A recording in progress: `recording` is set and one chunk is already
buffered. -/
def raceInit : ConcState :=
  { recording := true, buf := [[1]], snap := [], cbPassed := false,
    srActive := false }

/-- The frame block held by the in-flight callback invocation. -/
def raceChunk : Chunk := [5]

/-- The schedule in which the callback reads `recording` as true, the
hotkey thread then runs the whole hand-off, and the append lands last. -/
def badSchedule : List AtomicOp :=
  [AtomicOp.cbCheck, AtomicOp.srGuard, AtomicOp.srSetFlag, AtomicOp.srCopy,
   AtomicOp.srClear, AtomicOp.cbAppend]

/-! ## Concrete states used by counterexamples and witnesses -/

/-- A fully initialised app: model loaded, tray and overlay present,
idle. -/
def demoState : AppState :=
  { recording := false, processing := false, audio_data := [],
    model := some (), tray := true, overlay := true, key_pressed := false }

/-- A single callback block of 1600 samples (100 ms at 16 kHz). -/
def demoChunk : Chunk := List.replicate 1600 0

/-- Mid-recording state holding 800 samples (50 ms). -/
def shortState : AppState :=
  { demoState with
    recording := true,
    audio_data := [List.replicate 800 (0 : Int)] }

/-- Mid-recording state holding exactly 1600 samples (100 ms). -/
def exactState : AppState :=
  { demoState with recording := true, audio_data := [demoChunk] }

/-- App state while a previous cycle is still transcribing. -/
def processingState : AppState := { demoState with processing := true }

/-- One full press-hold-release cycle: `start_recording`, a sequence of
callback appends, `stop_recording`; final state and combined trace. -/
def runCycle (s : AppState) (chunks : List Chunk) : AppState × List Action :=
  let p1 := start_recording s
  let s2 := chunks.foldl audio_callback p1.1
  let p2 := stop_recording s2
  (p2.1, p1.2 ++ p2.2)

/-! ## Helper lemmas -/

/-- `audio_callback` only touches `audio_data`: every other field survives
any sequence of callback invocations. -/
theorem foldl_audio_callback_fields (s : AppState) (chunks : List Chunk) :
    (chunks.foldl audio_callback s).recording = s.recording ∧
    (chunks.foldl audio_callback s).processing = s.processing ∧
    (chunks.foldl audio_callback s).tray = s.tray ∧
    (chunks.foldl audio_callback s).overlay = s.overlay := by
  induction chunks generalizing s with
  | nil => simp
  | cons c rest ih =>
      cases hr : s.recording
      · simpa [audio_callback, hr] using ih s
      · simpa [audio_callback, hr] using
          ih { s with audio_data := s.audio_data ++ [c] }

/-- `start_recording` reassigns the buffer exactly once when its guard
passes. -/
theorem countResets_start_recording (s : AppState) (h1 : s.recording = false)
    (h2 : s.processing = false) (h3 : s.model = some ()) :
    countResets (start_recording s).2 = 1 := by
  cases hT : s.tray <;> cases hO : s.overlay <;>
    simp [start_recording, h1, h2, h3, hT, hO, countResets, Action.isReset]

/-- `stop_recording` reassigns the buffer exactly once when a recording is
in progress, on both the discard and the hand-off branch. -/
theorem countResets_stop_recording (s : AppState) (h : s.recording = true) :
    countResets (stop_recording s).2 = 1 := by
  cases hT : s.tray <;> cases hO : s.overlay <;>
    by_cases hlen : totalSamples s.audio_data < MIN_SAMPLES <;>
      simp [stop_recording, h, hT, hO, hlen, countResets, Action.isReset]

/-! ## Claim theorems -/

/-- C1: the claim states that the audio callback's append, the buffer
reset and the buffer detach are mutually exclusive on the shared chunk
list in every interleaving.  The code takes no lock: `badSchedule` is a
legal interleaving (the callback reads `recording` as true, the whole
stop_recording hand-off then runs, the append lands last) whose final
state differs from both serial executions — the chunk the callback
captured during the recording ends up in neither the detached snapshot
nor any serially-reachable buffer state, so the three operations are not
mutually exclusive and there is no equivalent lock-free hand-off. -/
theorem append_detach_not_mutually_exclusive :
    Merge cbProg srProg badSchedule ∧
    runOps raceChunk raceInit badSchedule =
      { recording := false, buf := [raceChunk], snap := [[1]],
        cbPassed := true, srActive := true } ∧
    runOps raceChunk raceInit (cbProg ++ srProg) =
      { recording := false, buf := [], snap := [[1], raceChunk],
        cbPassed := true, srActive := true } ∧
    runOps raceChunk raceInit (srProg ++ cbProg) =
      { recording := false, buf := [], snap := [[1]],
        cbPassed := false, srActive := true } ∧
    runOps raceChunk raceInit badSchedule ≠
      runOps raceChunk raceInit (cbProg ++ srProg) ∧
    runOps raceChunk raceInit badSchedule ≠
      runOps raceChunk raceInit (srProg ++ cbProg) := by
  refine ⟨?_, by decide, by decide, by decide, by decide, by decide⟩
  exact Merge.left (Merge.right (Merge.right (Merge.right (Merge.right
    (Merge.left Merge.nil)))))

set_option maxRecDepth 8192 in
/-- C2 counterexample: the claim says the Session buffer is cleared
exactly once per recording cycle, at `start_recording`, and that no
other operation reassigns it.  A concrete full cycle (start, one 1600
sample callback, stop) performs two `self.audio_data = []`
reassignments: one in `start_recording` (line 345) and one in
`stop_recording` (line 362). -/
theorem buffer_reset_twice_per_cycle :
    countResets (runCycle demoState [demoChunk]).2 = 2 := by decide

/-- C2 amended: in every recording cycle the buffer is reassigned exactly
twice — cleared once at the transition into `recording`
(`start_recording`), and reset once more to a fresh empty list as part of
the snapshot-and-detach in `stop_recording`; the audio callback itself
never clears or reassigns it (it only appends). -/
theorem buffer_reset_once_at_start_once_at_detach
    (s : AppState) (chunks : List Chunk) (h1 : s.recording = false)
    (h2 : s.processing = false) (h3 : s.model = some ()) :
    countResets (start_recording s).2 = 1 ∧
    countResets (stop_recording
      (chunks.foldl audio_callback (start_recording s).1)).2 = 1 := by
  refine ⟨countResets_start_recording s h1 h2 h3, ?_⟩
  apply countResets_stop_recording
  have h := (foldl_audio_callback_fields (start_recording s).1 chunks).1
  rw [h]
  simp [start_recording, h1, h2, h3]

/-- C3: a captured chunk list totalling fewer than `MIN_SAMPLES = 1600`
samples (100 ms at 16 kHz) is discarded by `stop_recording`: the
recording flag is dropped, the processing flag is never set, no worker
thread is spawned, and the machine is back in idle
(`recording = processing = false`). -/
theorem short_recording_discarded (s : AppState) (hrec : s.recording = true)
    (hproc : s.processing = false)
    (hshort : totalSamples s.audio_data < MIN_SAMPLES) :
    (stop_recording s).1.recording = false ∧
    (stop_recording s).1.processing = false ∧
    (∀ chunks, Action.spawnTranscribe chunks ∉ (stop_recording s).2) ∧
    Action.setProcessing true ∉ (stop_recording s).2 := by
  cases hT : s.tray <;> cases hO : s.overlay <;>
    simp [stop_recording, hrec, hproc, hshort, hT, hO]

/-- C4: a hotkey-down while a previous Session is `processing`, or while
the model is still loading, is dropped: `start_recording` returns with
the whole state unchanged and an empty effect trace — no Session, no
buffer reset, no worker, so the machine never re-enters `recording` from
`processing`. -/
theorem start_recording_ignored_while_processing (s : AppState)
    (h : s.processing = true ∨ s.model = none) :
    start_recording s = (s, []) := by
  rcases h with h | h <;> simp [start_recording, h]

/-- C10: the discard threshold is a strict less-than: a capture of
exactly `MIN_SAMPLES = 1600` samples (exactly 100 ms at 16 kHz) is not
discarded — `stop_recording` sets the processing flag and spawns the
transcription worker on the detached snapshot. -/
theorem exact_threshold_not_discarded (s : AppState)
    (hrec : s.recording = true)
    (hlen : totalSamples s.audio_data = MIN_SAMPLES) :
    (stop_recording s).1.processing = true ∧
    Action.spawnTranscribe s.audio_data ∈ (stop_recording s).2 := by
  cases hT : s.tray <;> cases hO : s.overlay <;>
    simp [stop_recording, hrec, hlen, hT, hO]

/-- C5: for every segment sequence returned by the engine, the delivered
transcript is the segment texts joined with single spaces and stripped
(`transcriptOf`): every clipboard write carries exactly that string, and
when it is empty (including all-whitespace segments) no clipboard write
and no paste keystroke happen while the cycle still completes normally
(`processing` reset, no error path taken). -/
theorem transcript_join_strip_empty_no_paste (s : AppState)
    (chunks : List Chunk) (segments : List String) (hne : chunks ≠ []) :
    (transcriptOf segments ≠ "" →
      Action.clipboardCopy (transcriptOf segments) ∈
        (transcribe s chunks (InferResult.ok segments)).2) ∧
    (∀ t, Action.clipboardCopy t ∈
        (transcribe s chunks (InferResult.ok segments)).2 →
      t = transcriptOf segments) ∧
    (transcriptOf segments = "" →
      (∀ t, Action.clipboardCopy t ∉
          (transcribe s chunks (InferResult.ok segments)).2) ∧
      Action.pasteKeystroke ∉
        (transcribe s chunks (InferResult.ok segments)).2 ∧
      (transcribe s chunks (InferResult.ok segments)).1.processing = false) := by
  by_cases htext : transcriptOf segments = "" <;>
    cases hT : s.tray <;> cases hO : s.overlay <;>
      simp [transcribe, concatChunks, hne, htext, hT, hO]

/-- C6: every failure inside a transcription cycle is non-fatal: whatever
the concatenation outcome and the engine outcome, `transcribe` ends with
the processing flag reset to `false`, and on the failure paths
(concatenation error, i.e. an empty chunk list, or an engine exception)
it performs no clipboard write and no paste keystroke. -/
theorem transcribe_failures_nonfatal (s : AppState) (chunks : List Chunk)
    (infer : InferResult) :
    (transcribe s chunks infer).1.processing = false ∧
    (chunks = [] →
      (∀ t, Action.clipboardCopy t ∉ (transcribe s chunks infer).2) ∧
      Action.pasteKeystroke ∉ (transcribe s chunks infer).2) ∧
    (∀ msg, infer = InferResult.err msg →
      (∀ t, Action.clipboardCopy t ∉ (transcribe s chunks infer).2) ∧
      Action.pasteKeystroke ∉ (transcribe s chunks infer).2) := by
  by_cases hc : chunks = []
  · cases hT : s.tray <;> cases hO : s.overlay <;>
      simp [transcribe, concatChunks, hc, hT, hO]
  · cases infer with
    | ok segments =>
        by_cases htext : transcriptOf segments = "" <;>
          cases hT : s.tray <;> cases hO : s.overlay <;>
            simp [transcribe, concatChunks, hc, htext, hT, hO]
    | err msg =>
        cases hT : s.tray <;> cases hO : s.overlay <;>
          simp [transcribe, concatChunks, hc, hT, hO]

/-- C7: for a non-empty transcript the worker performs, in this strict
order: the clipboard write, a 50 ms sleep, the paste keystroke (then the
paste cue and temp-file removal), and only after all of those the
processing-flag reset that signals completion to the state machine; the
trace contains no verification of the paste. -/
theorem paste_sequence_order (s : AppState) (chunks : List Chunk)
    (segments : List String) (hne : chunks ≠ [])
    (htext : transcriptOf segments ≠ "") (htray : s.tray = true)
    (hov : s.overlay = true) :
    (transcribe s chunks (InferResult.ok segments)).2 =
      [Action.wavWrite, Action.inferCall,
       Action.clipboardCopy (transcriptOf segments), Action.sleep 50,
       Action.pasteKeystroke, Action.playSound "paste", Action.unlinkTemp,
       Action.setProcessing false, Action.setIcon "green", Action.sleep 300,
       Action.overlayHide] := by
  simp [transcribe, concatChunks, hne, htext, htray, hov]

/-- C8: the polling hotkey monitor calls `start_recording` exactly once
per false→true edge of the raw key-down samples and `stop_recording`
exactly once per true→false edge: a press held over many polls produces
one start and one stop, and a press observed twice without an
intervening release produces a single start. -/
theorem hotkey_edge_detection (kp : Bool) (samples : List Bool) :
    countStarts (key_poll_events kp samples) = risingEdges kp samples ∧
    countStops (key_poll_events kp samples) = fallingEdges kp samples := by
  induction samples generalizing kp with
  | nil => simp [key_poll_events, risingEdges, fallingEdges, countStarts,
      countStops]
  | cons b rest ih =>
      cases b <;> cases kp <;>
        simp [key_poll_events, risingEdges, fallingEdges, countStarts,
          countStops, ih, Nat.add_comm]

/-- C9: `load_config` never fails hard — a missing `config.json` yields
the defaults, and an unreadable or unparsable one is swallowed by the
bare `except` and also yields the defaults. -/
theorem load_config_defaults_on_missing_or_malformed :
    load_config ConfigFile.missing = DEFAULT_CONFIG ∧
    load_config ConfigFile.malformed = DEFAULT_CONFIG :=
  ⟨rfl, rfl⟩

/-! ## Witnesses: the claim theorems instantiated at concrete inputs -/

/-- C2 witness: the amended reset count on a concrete idle state and a
single 1600-sample callback block. -/
theorem buffer_reset_once_at_start_once_at_detach_witness :
    demoState.recording = false ∧ demoState.processing = false ∧
    demoState.model = some () ∧
    (countResets (start_recording demoState).2 = 1 ∧
     countResets (stop_recording
       ([demoChunk].foldl audio_callback (start_recording demoState).1)).2
       = 1) :=
  ⟨rfl, rfl, rfl,
   buffer_reset_once_at_start_once_at_detach demoState [demoChunk] rfl rfl rfl⟩

set_option maxRecDepth 8192 in
/-- C3 witness: a 50 ms (800 sample) capture is discarded. -/
theorem short_recording_discarded_witness :
    shortState.recording = true ∧ shortState.processing = false ∧
    totalSamples shortState.audio_data < MIN_SAMPLES ∧
    ((stop_recording shortState).1.recording = false ∧
     (stop_recording shortState).1.processing = false ∧
     (∀ chunks, Action.spawnTranscribe chunks ∉ (stop_recording shortState).2) ∧
     Action.setProcessing true ∉ (stop_recording shortState).2) :=
  ⟨rfl, rfl, by decide,
   short_recording_discarded shortState rfl rfl (by decide)⟩

/-- C4 witness: a press while `processing` leaves the concrete state
untouched. -/
theorem start_recording_ignored_while_processing_witness :
    (processingState.processing = true ∨ processingState.model = none) ∧
    start_recording processingState = (processingState, []) :=
  ⟨Or.inl rfl,
   start_recording_ignored_while_processing processingState (Or.inl rfl)⟩

/-- C5 witness: whitespace-only segments — a tab, a lone file separator
(which Python `str.strip()` removes) and a space — join and strip to the
empty transcript, and the cycle then writes no clipboard, pastes
nothing, and still resets the processing flag. -/
theorem transcript_join_strip_empty_no_paste_witness :
    ([[0]] : List Chunk) ≠ [] ∧ transcriptOf ["\t", "\x1c", " "] = "" ∧
    ((∀ t, Action.clipboardCopy t ∉
        (transcribe demoState [[0]] (InferResult.ok ["\t", "\x1c", " "])).2) ∧
     Action.pasteKeystroke ∉
       (transcribe demoState [[0]] (InferResult.ok ["\t", "\x1c", " "])).2 ∧
     (transcribe demoState [[0]]
       (InferResult.ok ["\t", "\x1c", " "])).1.processing = false) := by
  have h := transcript_join_strip_empty_no_paste demoState [[0]]
    ["\t", "\x1c", " "] (by decide)
  exact ⟨by decide, by decide, h.2.2 (by decide)⟩

/-- C6 witness: an engine exception on a concrete cycle leaves no
clipboard write and no paste and resets the processing flag. -/
theorem transcribe_failures_nonfatal_witness :
    (transcribe processingState [[0]] (InferResult.err "cuda gone")).1.processing
      = false ∧
    (∀ t, Action.clipboardCopy t ∉
        (transcribe processingState [[0]] (InferResult.err "cuda gone")).2) ∧
    Action.pasteKeystroke ∉
      (transcribe processingState [[0]] (InferResult.err "cuda gone")).2 := by
  have h := transcribe_failures_nonfatal processingState [[0]]
    (InferResult.err "cuda gone")
  exact ⟨h.1, (h.2.2 "cuda gone" rfl).1, (h.2.2 "cuda gone" rfl).2⟩

/-- C7 witness: the full ordered action trace for the transcript
`"hello"` on a concrete state. -/
theorem paste_sequence_order_witness :
    ([[0]] : List Chunk) ≠ [] ∧ transcriptOf ["hello"] ≠ "" ∧
    demoState.tray = true ∧ demoState.overlay = true ∧
    (transcribe demoState [[0]] (InferResult.ok ["hello"])).2 =
      [Action.wavWrite, Action.inferCall,
       Action.clipboardCopy (transcriptOf ["hello"]), Action.sleep 50,
       Action.pasteKeystroke, Action.playSound "paste", Action.unlinkTemp,
       Action.setProcessing false, Action.setIcon "green", Action.sleep 300,
       Action.overlayHide] :=
  ⟨by decide, by decide, rfl, rfl,
   paste_sequence_order demoState [[0]] ["hello"] (by decide) (by decide)
     rfl rfl⟩

/-- C8 witness: a press reported twice with no intervening release —
samples `[true, true]` from a released key — yields exactly one start
call and no stop call. -/
theorem hotkey_edge_detection_witness :
    countStarts (key_poll_events false [true, true]) =
      risingEdges false [true, true] ∧
    countStops (key_poll_events false [true, true]) =
      fallingEdges false [true, true] :=
  hotkey_edge_detection false [true, true]

set_option maxRecDepth 8192 in
/-- C10 witness: a capture of exactly 1600 samples reaches the worker. -/
theorem exact_threshold_not_discarded_witness :
    exactState.recording = true ∧
    totalSamples exactState.audio_data = MIN_SAMPLES ∧
    ((stop_recording exactState).1.processing = true ∧
     Action.spawnTranscribe exactState.audio_data ∈
       (stop_recording exactState).2) :=
  ⟨rfl, by decide, exact_threshold_not_discarded exactState rfl (by decide)⟩

end WinVoice
